import Mathlib

/-
  Verification development for the SpaceFigureAI tour-guide pipeline.

  Shallow embedding of:
    - src/agents/tour_guide_agent/main.py        (_list_images, batch loop of main)
    - src/agents/tour_guide_agent/scene_builder.py (to_scene_json)
    - src/agents/tour_guide_agent/geometry.py      (estimate_dimensions)
    - src/agents/tour_guide_agent/depth_estimation.py (the depth normalization step)
    - src/agents/tour_guide_agent/orientation.py   (estimate_orientation)
    - src/agents/tour_guide_agent/perception.py    (detect_and_segment)
    - src/agents/tour_guide_agent.py               (guess_mode_from_image, process_media)

  External model calls (GroundingDINO, SAM, YOLO, MiDaS), OpenCV decoding and
  the filesystem are abstracted as environment records supplied to the embedded
  functions; machine floats are modelled with exact rationals.
-/

namespace TourGuide

/-! ## Data model -/

/-- Boolean HxW mask, row major. -/
abbrev Mask := List (List Bool)

/-- Axis-aligned pixel bounding box, xyxy order. -/
structure BBox where
  x1 : ℚ
  y1 : ℚ
  x2 : ℚ
  y2 : ℚ
deriving DecidableEq

/-- One detection instance (perception.py DetInstance dataclass). -/
structure DetInstance where
  label : String
  confidence : ℚ
  bbox_xyxy : BBox
  mask : Option Mask
deriving DecidableEq

/-- Depth statistics dict passed by main.run_one into to_scene_json. -/
structure DepthStats where
  mean : ℚ
  std : ℚ
  vis_path : String
deriving DecidableEq

/-- Geometry statistics dict returned by geometry.plane_stats_from_depth. -/
structure GeomStats where
  low_gradient_fraction : ℚ
  floor_planarity_score : ℚ
  median_depth : ℚ
deriving DecidableEq

/-- Dimension-estimate dict returned by geometry.estimate_dimensions.
    Keys present only in one branch of the Python dict are Option fields. -/
structure DimEstimate where
  image_width_px : Nat
  image_height_px : Nat
  scale : String
  ceiling_height_px_guess : Option Int
  px_to_m : Option ℚ
  focal_px : Option ℚ
  ceiling_height_m_guess : Option ℚ
deriving DecidableEq

/-- Orientation dict returned by orientation.estimate_orientation.
    The degenerate branches return only the orientation key. -/
structure OrientStats where
  orientation : String
  brightness_cx_px : Option ℚ
  image_width_px : Option Nat
deriving DecidableEq

/-- One entry of the objects array of a scene record. -/
structure SceneObj where
  label : String
  confidence : ℚ
  bbox_xyxy : List ℚ
  has_mask : Bool
deriving DecidableEq

/-- Scene record built by scene_builder.to_scene_json. -/
structure SceneRecord where
  source_image : String
  objects : List SceneObj
  depth : DepthStats
  geometry : GeomStats
  dimensions : DimEstimate
  orientation : OrientStats
deriving DecidableEq

/-! ## Scene fusion (scene_builder.to_scene_json) -/

/-- Embedding of scene_builder.to_scene_json: a pure merge of the per-image
    signals into one record; the objects array is built from dets in order. -/
def to_scene_json (image_path : String) (dets : List DetInstance)
    (depth_stats : DepthStats) (geom_stats : GeomStats)
    (dim_stats : DimEstimate) (orient_stats : OrientStats) : SceneRecord :=
  { source_image := image_path
    objects := dets.map fun d =>
      { label := d.label
        confidence := d.confidence
        bbox_xyxy := [d.bbox_xyxy.x1, d.bbox_xyxy.y1, d.bbox_xyxy.x2, d.bbox_xyxy.y2]
        has_mask := d.mask.isSome }
    depth := depth_stats
    geometry := geom_stats
    dimensions := dim_stats
    orientation := orient_stats }

/-! ## Batch controller (main.main loop) -/

/-- One entry of the batch output: a scene record, or the error dict
    produced by the except branch of the loop in main.main. -/
inductive BatchEntry
  | scene (s : SceneRecord)
  | err (image : String) (error : String)
deriving DecidableEq

/-- Embedding of the batch loop of main.main: run_one per image inside
    try/except, appending either the scene or an error entry. The whole
    per-image pipeline is the function run_one, which may raise (Except). -/
def runBatch (run_one : String → Except String SceneRecord)
    (images : List String) : List BatchEntry :=
  images.map fun img =>
    match run_one img with
    | .ok s => .scene s
    | .error e => .err img e

/-! ## Filesystem model and main._list_images -/

/-- Status of a path in the modelled filesystem. -/
inductive FsNode
  | file
  | dir (children : List String)
  | missing
deriving DecidableEq

/-- A filesystem: every path string has a node status. -/
structure Fs where
  node : String → FsNode

def Fs.isFile (fs : Fs) (p : String) : Bool :=
  match fs.node p with
  | .file => true
  | _ => false

def Fs.isDir (fs : Fs) (p : String) : Bool :=
  match fs.node p with
  | .dir _ => true
  | _ => false

def Fs.children (fs : Fs) (p : String) : List String :=
  match fs.node p with
  | .dir c => c
  | _ => []

/-- Index of the last '.' in a list of characters, if any. -/
def lastDotIdx (cs : List Char) : Option Nat :=
  ((cs.enum.filter fun pr => pr.2 == '.').map Prod.fst).getLast?

/-- Embedding of pathlib suffix of a file NAME: the extension from the last
    dot, empty when there is no dot, the name starts with the dot, or the
    dot is the final character. -/
def pathSuffix (name : String) : String :=
  let cs := name.toList
  match lastDotIdx cs with
  | none => ""
  | some i => if 0 < i ∧ i + 1 < cs.length then String.mk (cs.drop i) else ""

/-- ASCII lowercase of a string (str.lower restricted to the ASCII names
    the pipeline compares). -/
def strLower (s : String) : String := String.mk (s.toList.map Char.toLower)

/-- Split a character list on '/' separators. -/
def splitSlash : List Char → List (List Char)
  | [] => [[]]
  | c :: rest =>
    let r := splitSlash rest
    if c = '/' then [] :: r
    else (c :: r.headD []) :: r.tail

/-- Final path component, used for suffix of the root input path. -/
def baseName (p : String) : String :=
  String.mk ((splitSlash p.toList).getLastD p.toList)

def joinPath (p n : String) : String := p ++ "/" ++ n

/-- Recognized image extensions (main.py IMAGE_EXTS). -/
def IMAGE_EXTS : List String := [".jpg", ".jpeg", ".png", ".bmp", ".tif", ".tiff"]

/-- Embedding of main._list_images: a single image file lists itself, a
    directory lists its suffix-filtered children sorted, anything else
    raises FileNotFoundError. -/
def listImages (fs : Fs) (p : String) : Except String (List String) :=
  if fs.isFile p ∧ strLower (pathSuffix (baseName p)) ∈ IMAGE_EXTS then
    .ok [p]
  else if fs.isDir p then
    .ok ((((fs.children p).filter
        fun x => decide (strLower (pathSuffix x) ∈ IMAGE_EXTS)).insertionSort
          (· ≤ ·)).map (joinPath p))
  else
    .error ("Invalid input path: " ++ p)

/-! ## Mode classifier (tour_guide_agent.guess_mode_from_image) -/

/-- Scores derived from a decoded image: the Hasler-Süsstrunk colorfulness
    metric of _image_colorfulness and the Canny edge density of
    _edge_density, abstracted as the two rational numbers the decision
    rule compares. -/
structure ImageScores where
  colorfulness : ℚ
  edge_density : ℚ
deriving DecidableEq

/-- Decision rule of guess_mode_from_image with the two thresholds
    abstracted as parameters (the source hardcodes 25.0 and 0.05). -/
def classify_mode (t_c t_e : ℚ) (s : ImageScores) : String :=
  if s.colorfulness < t_c ∧ s.edge_density > t_e then "blueprint" else "room"

/-- Embedding of guess_mode_from_image: an undecodable image (imread gave
    None) degrades to room, otherwise the rule at thresholds 25.0 / 0.05. -/
def guess_mode_from_image (decoded : Option ImageScores) : String :=
  match decoded with
  | none => "room"
  | some s => classify_mode 25 (1/20) s

/-! ## Geometry (geometry.estimate_dimensions) -/

/-- Real-valued library functions used by the approx-meters branch
    (np.tan, np.deg2rad), abstracted as an environment. -/
structure MathEnv where
  tan : ℚ → ℚ
  deg2rad : ℚ → ℚ

/-- Embedding of np.median of a 1-D array: midpoint rule on the sorted
    values (average of the two middle values for even length). -/
def npMedian (l : List ℚ) : ℚ :=
  let s := l.insertionSort (· ≤ ·)
  let n := s.length
  if n % 2 = 1 then s.getD (n / 2) 0
  else (s.getD (n / 2 - 1) 0 + s.getD (n / 2) 0) / 2

/-- Embedding of np.argmax over a boolean array: index of the first true,
    0 when there is none. -/
def argmaxBool (l : List Bool) : Nat := (l.findIdx? id).getD 0

/-- Embedding of geometry.estimate_dimensions. The depth field is a row
    major grid; h, w are its shape. The branch test is exactly the
    source's "camera_height_m is None or fov_deg is None". -/
def estimate_dimensions (env : MathEnv) (depth_norm : List (List ℚ))
    (camera_height_m : Option ℚ) (fov_deg : Option ℚ) : DimEstimate :=
  let h := depth_norm.length
  let w := (depth_norm.headD []).length
  match camera_height_m, fov_deg with
  | some ch, some fov =>
    let f := ((w : ℚ) / 2) / env.tan (env.deg2rad (fov / 2))
    let px_to_m := ch / ((h : ℚ) * (45/100))
    { image_width_px := w
      image_height_px := h
      scale := "approx_meters"
      ceiling_height_px_guess := none
      px_to_m := some px_to_m
      focal_px := some f
      ceiling_height_m_guess := some (((h : ℚ) * (45/100)) * px_to_m) }
  | _, _ =>
    let col := depth_norm.map npMedian
    let meanCol := col.sum / (col.length : ℚ)
    let top := argmaxBool (col.map fun x => decide (x < meanCol))
    let bottom := argmaxBool (col.reverse.map fun x => decide (x < meanCol))
    { image_width_px := w
      image_height_px := h
      scale := "relative"
      ceiling_height_px_guess := some (max 50 ((h : ℤ) - (bottom : ℤ) - (top : ℤ)))
      px_to_m := none
      focal_px := none
      ceiling_height_m_guess := none }

/-! ## Depth normalization (depth_estimation.estimate_depth, final step) -/

/-- Epsilon guard of the normalization denominator (1e-6 in the source). -/
def EPS : ℚ := 1/1000000

/-- Minimum of a list of rationals (np.min); 0 on the empty list, which
    numpy rejects — theorems assume nonempty fields. -/
def listMin : List ℚ → ℚ
  | [] => 0
  | x :: xs => xs.foldl min x

/-- Maximum of a list of rationals (np.max); 0 on the empty list. -/
def listMax : List ℚ → ℚ
  | [] => 0
  | x :: xs => xs.foldl max x

/-- Embedding of the normalization step of estimate_depth:
    (d - min) / (max - min + 1e-6), elementwise. The 2-D field is
    represented flattened since the operation and its min/max are
    pointwise over all entries. -/
def normalize_depth (d : List ℚ) : List ℚ :=
  d.map fun x => (x - listMin d) / (listMax d - listMin d + EPS)

/-! ## Orientation (orientation.estimate_orientation) -/

/-- A BGR pixel with 8-bit channels. -/
abbrev BGRPixel := Nat × Nat × Nat

/-- A decoded image: row-major grid of BGR pixels. -/
abbrev RawImage := List (List BGRPixel)

/-- HSV value channel of a pixel scaled to [0,1]: max(B,G,R)/255, the
    OpenCV V definition followed by the astype("float32")/255 step. -/
def pixelV (p : BGRPixel) : ℚ := (max p.1 (max p.2.1 p.2.2) : ℚ) / 255

/-- Embedding of np.quantile with linear interpolation: value at fractional
    position q*(n-1) of the sorted data. -/
def npQuantile (l : List ℚ) (q : ℚ) : ℚ :=
  let s := l.insertionSort (· ≤ ·)
  let n := s.length
  if n = 0 then 0
  else
    let pos : ℚ := q * ((n : ℚ) - 1)
    let lo := (Int.floor pos).toNat
    let hi := (Int.ceil pos).toNat
    s.getD lo 0 + (pos - (lo : ℚ)) * (s.getD hi 0 - s.getD lo 0)

/-- Image moment m10 contribution of one row: sum over columns of
    x * value. -/
def rowM10 (row : List ℚ) : ℚ :=
  (row.enum.map fun pr => (pr.1 : ℚ) * pr.2).sum

/-- Zeroth moment of a value grid: sum of all entries (cv2.moments m00). -/
def gridM00 (v : List (List ℚ)) : ℚ := (v.map List.sum).sum

/-- First horizontal moment of a value grid (cv2.moments m10). -/
def gridM10 (v : List (List ℚ)) : ℚ := (v.map rowM10).sum

/-- Embedding of orientation.estimate_orientation. The input is the
    decoded image (None when cv2.imread failed). Highlight removal clips
    the value channel from above at its 0.995 quantile; a zeroth moment
    at most 1e-6 degrades to unknown; otherwise the brightness centroid's
    horizontal position against 0.45/0.55 width thresholds picks a label. -/
def estimate_orientation (img : Option RawImage) : OrientStats :=
  match img with
  | none => { orientation := "unknown", brightness_cx_px := none, image_width_px := none }
  | some rows =>
    let v := rows.map fun r => r.map pixelV
    let q := npQuantile v.flatten (995/1000)
    let vc := v.map fun r => r.map fun x => max 0 (min x q)
    let M := gridM00 vc
    if M ≤ 1/1000000 then
      { orientation := "unknown", brightness_cx_px := none, image_width_px := none }
    else
      let cx := gridM10 vc / M
      let w := (rows.headD []).length
      let cardinal :=
        if cx > (55/100) * (w : ℚ) then "East-ish"
        else if cx < (45/100) * (w : ℚ) then "West-ish"
        else "South/North ambiguous"
      { orientation := cardinal, brightness_cx_px := some cx, image_width_px := some w }

/-- Constant image of shape h x w with all three channels equal to c. -/
def mkConstImage (h w c : Nat) : RawImage :=
  List.replicate h (List.replicate w (c, c, c))

/-! ## Perception (perception.detect_and_segment) -/

/-- Decoded image shape as seen by detect_and_segment. -/
structure ImgShape where
  h : Nat
  w : Nat
deriving DecidableEq

/-- One raw GroundingDINO detection: phrase, logit score, and a
    normalized xyxy box in [0,1]. -/
structure RawDet where
  phrase : String
  score : ℚ
  b0 : ℚ
  b1 : ℚ
  b2 : ℚ
  b3 : ℚ

/-- GroundingDINO model wrapper: predict_with_classes may raise. -/
structure DinoModel where
  predict : ImgShape → List String → Except String (List RawDet)

/-- One raw YOLO box: label, confidence, pixel xyxy box. -/
structure YoloBox where
  label : String
  conf : ℚ
  box : BBox

/-- YOLO fallback model: building and running it may raise. -/
structure YoloModel where
  infer : String → Except String (List YoloBox)

/-- Environment of detect_and_segment: image decoding, the optionally
    loadable DINO model, the optionally available SAM mask generator
    (abstracted as the full-size mask it yields per detection), and the
    optionally importable YOLO fallback. -/
structure PercEnv where
  imread : String → Option ImgShape
  dino : Option DinoModel
  samGen : Option (ImgShape → RawDet → Option Mask)
  yolo : Option YoloModel

/-- Class list parsed from the text prompt: comma split, trimmed,
    empties dropped. -/
def promptClasses (text_prompt : String) : List String :=
  ((text_prompt.splitOn ",").map String.trim).filter fun c => c ≠ ""

/-- Detection built from one DINO box: coordinates scaled to pixels, mask
    from the SAM generator when present. -/
def dinoDet (shape : ImgShape) (samGen : Option (ImgShape → RawDet → Option Mask))
    (r : RawDet) : DetInstance :=
  { label := r.phrase
    confidence := r.score
    bbox_xyxy := ⟨r.b0 * shape.w, r.b1 * shape.h, r.b2 * shape.w, r.b3 * shape.h⟩
    mask :=
      match samGen with
      | none => none
      | some g => g shape r }

/-- Detection built from one YOLO box: never carries a mask. -/
def yoloDet (b : YoloBox) : DetInstance :=
  { label := b.label, confidence := b.conf, bbox_xyxy := b.box, mask := none }

/-- YOLO fallback tail of detect_and_segment: empty list when the import
    failed, empty list when building or running the model raised. -/
def yoloFallback (env : PercEnv) (image_path : String) : Except String (List DetInstance) :=
  match env.yolo with
  | none => .ok []
  | some y =>
    match y.infer image_path with
    | .ok bs => .ok (bs.map yoloDet)
    | .error _ => .ok []

/-- Embedding of perception.detect_and_segment: unreadable image raises;
    the DINO path is preferred when the model loaded, any exception in it
    falls through to the YOLO fallback. -/
def detect_and_segment (env : PercEnv) (image_path : String)
    (text_prompt : String) : Except String (List DetInstance) :=
  match env.imread image_path with
  | none => .error ("Could not read image: " ++ image_path)
  | some shape =>
    match env.dino with
    | none => yoloFallback env image_path
    | some dino =>
      match dino.predict shape (promptClasses text_prompt) with
      | .ok raws => .ok (raws.map (dinoDet shape env.samGen))
      | .error _ => yoloFallback env image_path

/-! ## Legacy dispatcher (tour_guide_agent.process_media) -/

/-- Blueprint YOLO model handle. -/
structure BPModel where
  name : String
deriving DecidableEq

/-- Room YOLO model handle. -/
structure RModel where
  name : String
deriving DecidableEq

/-- Result dict of process_blueprint_image / process_room_photo,
    abstracted to its mode field. -/
structure MediaResult where
  mode : String
deriving DecidableEq

/-- Environment of process_media: model loading and the two per-mode
    processors. _load_blueprint_model_safely never raises (None on
    failure); YOLO(room_model_path) may raise; the processors may raise. -/
structure MediaEnv where
  loadBlueprint : Option BPModel
  loadRoom : Except String RModel
  procBlueprint : Option BPModel → String → Except String MediaResult
  procRoom : RModel → String → Except String MediaResult
  guessMode : String → String

/-- Mutable locals of process_media: the two memoized model variables and
    the res variable (none = still unbound, NameError when read). -/
structure MediaState where
  bp : Option BPModel
  room : Option RModel
  res : Option MediaResult
deriving DecidableEq

def initMediaState : MediaState := ⟨none, none, none⟩

/-- Embedding of _ensure_blueprint_model: reload while the variable is
    still None (a failed load is not cached), never raises. -/
def ensureBlueprint (env : MediaEnv) (st : MediaState) : Option BPModel × MediaState :=
  match st.bp with
  | some m => (some m, st)
  | none => (env.loadBlueprint, { st with bp := env.loadBlueprint })

/-- Embedding of _ensure_room_model: YOLO construction may raise, and the
    raise propagates to the caller of process_media. -/
def ensureRoom (env : MediaEnv) (st : MediaState) : Except String (RModel × MediaState) :=
  match st.room with
  | some m => .ok (m, st)
  | none =>
    match env.loadRoom with
    | .ok m => .ok (m, { st with room := some m })
    | .error e => .error e

/-- Embedding of Python truthiness of "mode_override or guess": an absent
    or empty override falls back to the guess. -/
def pyOr (o : Option String) (g : String) : String :=
  match o with
  | none => g
  | some s => if s = "" then g else s

/-- One iteration of the inner per-mode loop of process_media: model
    acquisition happens outside the try block (so a room-model load error
    propagates), the processor call inside it (so its error is swallowed).
    Returns the appended result, if any, and the updated locals. -/
def tryMode (env : MediaEnv) (img : String) (mode : String) (st : MediaState) :
    Except String (Option MediaResult × MediaState) :=
  if mode = "room" then
    match ensureRoom env st with
    | .error e => .error e
    | .ok (m, st1) =>
      match env.procRoom m img with
      | .ok r => .ok (some r, { st1 with res := some r })
      | .error _ => .ok (none, st1)
  else
    match ensureBlueprint env st with
    | (mb, st1) =>
      match env.procBlueprint mb img with
      | .ok r => .ok (some r, { st1 with res := some r })
      | .error _ => .ok (none, st1)

/-- The value the membership check of process_media actually inspects:
    the inner loop variable after the loop, i.e. the second element of
    [mode_guess, "room" if mode_guess == "blueprint" else "blueprint"]. -/
def secondMode (mode_guess : String) : String :=
  if mode_guess = "blueprint" then "room" else "blueprint"

/-- Per-image body of the process_media loop: the two-mode inner loop,
    the (misplaced) membership check on the loop variable, the dangling
    blueprint fallback block whose processor calls are not wrapped in
    try, and the final results.append(res). -/
def processOneImage (env : MediaEnv) (override : Option String) (img : String)
    (st : MediaState) : Except String (List MediaResult × MediaState) :=
  let mode_guess := strLower (pyOr override (env.guessMode img))
  match tryMode env img mode_guess st with
  | .error e => .error e
  | .ok (r1, st1) =>
    match tryMode env img (secondMode mode_guess) st1 with
    | .error e => .error e
    | .ok (r2, st2) =>
      let results_per_mode := r1.toList ++ r2.toList
      if secondMode mode_guess ≠ "blueprint" ∧ secondMode mode_guess ≠ "room" then
        .error "mode_override must be blueprint or room"
      else
        let afterBlock : Except String MediaState :=
          if secondMode mode_guess = "blueprint" then
            match ensureBlueprint env st2 with
            | (none, st3) =>
              match ensureRoom env st3 with
              | .error e => .error e
              | .ok (m, st4) =>
                match env.procRoom m img with
                | .error e => .error e
                | .ok r => .ok { st4 with res := some r }
            | (some m, st3) =>
              match env.procBlueprint (some m) img with
              | .error e => .error e
              | .ok r => .ok { st3 with res := some r }
          else .ok st2
        match afterBlock with
        | .error e => .error e
        | .ok stf =>
          match stf.res with
          | none => .error "NameError: name res is not defined"
          | some r => .ok (results_per_mode ++ [r], stf)

/-- The image loop of process_media, folding the mutable locals through
    the per-image bodies. -/
def mediaLoop (env : MediaEnv) (override : Option String) :
    List String → MediaState → List MediaResult → Except String (List MediaResult)
  | [], _, acc => .ok acc
  | img :: rest, st, acc =>
    match processOneImage env override img st with
    | .error e => .error e
    | .ok (rs, st1) => mediaLoop env override rest st1 (acc ++ rs)

/-- Image listing of process_media: like main._list_images but unsorted
    and raising on an image-free directory. -/
def mediaListImages (fs : Fs) (p : String) : Except String (List String) :=
  if fs.isFile p ∧ strLower (pathSuffix (baseName p)) ∈ IMAGE_EXTS then
    .ok [p]
  else if fs.isDir p then
    let images := ((fs.children p).filter
      fun x => decide (strLower (pathSuffix x) ∈ IMAGE_EXTS)).map (joinPath p)
    if images.isEmpty then .error ("No valid images found in " ++ p)
    else .ok images
  else
    .error "Invalid input path; must be image or directory."

/-- Embedding of tour_guide_agent.process_media: list images, then run
    the per-image loop with freshly-None model variables. -/
def process_media (env : MediaEnv) (fs : Fs) (input_path : String)
    (mode_override : Option String) : Except String (List MediaResult) :=
  match mediaListImages fs input_path with
  | .error e => .error e
  | .ok images => mediaLoop env mode_override images initMediaState []

/-! ## Sample values used by witnesses -/

def sampleDepthStats : DepthStats := ⟨1/2, 1/10, "out/a_depth.png"⟩

def sampleGeom : GeomStats := ⟨1/2, 3/4, 1/2⟩

def sampleDim : DimEstimate := ⟨640, 480, "relative", some 50, none, none, none⟩

def sampleOrient : OrientStats := ⟨"East-ish", some 400, some 640⟩

def sampleDet : DetInstance := ⟨"chair", 9/10, ⟨0, 0, 10, 10⟩, none⟩

def sampleDetMask : DetInstance := ⟨"sofa", 8/10, ⟨1, 2, 30, 40⟩, some [[true, false]]⟩

def sampleScene : SceneRecord :=
  to_scene_json "a.jpg" [sampleDet] sampleDepthStats sampleGeom sampleDim sampleOrient

def dummyDet : DetInstance := ⟨"", 0, ⟨0, 0, 0, 0⟩, none⟩

def dummyObj : SceneObj := ⟨"", 0, [], false⟩

/-- Concrete per-image pipeline failing exactly on b.jpg, for witnesses. -/
def wBatchF : String → Except String SceneRecord :=
  fun p => if p = "b.jpg" then .error "boom" else .ok sampleScene

/-- Composition of main.main: list the images, then run the batch loop;
    a listing error propagates before any per-image work. -/
def main_batch (fs : Fs) (run_one : String → Except String SceneRecord)
    (p : String) : Except String (List BatchEntry) :=
  match listImages fs p with
  | .error e => .error e
  | .ok images => .ok (runBatch run_one images)

/-- A filesystem whose directory imgs exists but contains no file with a
    recognized image extension. -/
def fsEmptyDir : Fs :=
  ⟨fun p =>
    if p = "imgs" then .dir ["notes.txt", "readme.md"]
    else if p = "imgs/notes.txt" then .file
    else if p = "imgs/readme.md" then .file
    else .missing⟩

/-- Concrete math environment for dimension-estimate witnesses (tan and
    deg2rad are irrelevant to the variant tag). -/
def mathEnv0 : MathEnv := ⟨fun _ => 1, fun x => x⟩

/-- Perception environment in which the image decodes but neither DINO
    nor the YOLO fallback is available. -/
def percEnvNone : PercEnv := ⟨fun _ => some ⟨480, 640⟩, none, none, none⟩

/-- Media environment: blueprint weights missing, room model loads, room
    processing succeeds, blueprint processing raises on the None model. -/
def mediaEnv0 : MediaEnv :=
  { loadBlueprint := none
    loadRoom := .ok ⟨"yolov8n"⟩
    procBlueprint := fun _ _ => .error "AttributeError"
    procRoom := fun _ _ => .ok ⟨"room"⟩
    guessMode := fun _ => "room" }

/-- A filesystem with a single readable room image. -/
def fsOneRoom : Fs := ⟨fun p => if p = "room.jpg" then .file else .missing⟩

/-! ## Helper lemmas -/

theorem getD_map_of_lt {α β : Type} (f : α → β) :
    ∀ (l : List α) (k : Nat), k < l.length → ∀ (da : α) (db : β),
      (l.map f).getD k db = f (l.getD k da)
  | [], _, hk, _, _ => absurd hk (by simp)
  | _ :: _, 0, _, _, _ => rfl
  | _ :: t, k + 1, hk, da, db => getD_map_of_lt f t k (by simpa using hk) da db

/-! ## Claim theorems -/

/-- C1: for a batch of N enumerated images, an exception raised in image
    K's per-image pipeline still yields a batch result of length N in
    input order, with entry K the error entry carrying that image's path
    and every image whose pipeline succeeds contributing its scene record:
    one failure never aborts the rest of the batch. -/
theorem batch_isolates_failures (run_one : String → Except String SceneRecord)
    (images : List String) (k : Nat) (e : String)
    (hk : k < images.length)
    (hfail : run_one (images.getD k "") = .error e) :
    (runBatch run_one images).length = images.length ∧
    (runBatch run_one images).getD k (.err "" "") = .err (images.getD k "") e ∧
    ∀ j s, j < images.length → run_one (images.getD j "") = .ok s →
      (runBatch run_one images).getD j (.err "" "") = .scene s := by
  refine ⟨by simp [runBatch], ?_, ?_⟩
  · rw [runBatch, getD_map_of_lt _ images k hk ""]
    simp only [hfail]
  · intro j s hj hok
    rw [runBatch, getD_map_of_lt _ images j hj ""]
    simp only [hok]

/-- Witness for C1 at a three-image batch whose middle image fails. -/
theorem batch_isolates_failures_witness :
    (1 < (["a.jpg", "b.jpg", "c.jpg"] : List String).length ∧
      wBatchF ((["a.jpg", "b.jpg", "c.jpg"] : List String).getD 1 "") = .error "boom") ∧
    (runBatch wBatchF ["a.jpg", "b.jpg", "c.jpg"]).length = 3 ∧
    (runBatch wBatchF ["a.jpg", "b.jpg", "c.jpg"]).getD 1 (.err "" "") = .err "b.jpg" "boom" ∧
    (runBatch wBatchF ["a.jpg", "b.jpg", "c.jpg"]).getD 0 (.err "" "") = .scene sampleScene := by
  have h := batch_isolates_failures wBatchF ["a.jpg", "b.jpg", "c.jpg"] 1 "boom"
    (by decide) (by rfl)
  exact ⟨⟨by decide, by rfl⟩, h.1, h.2.1, h.2.2 0 sampleScene (by decide) (by rfl)⟩

/-- C2: for every decodable image and every threshold pair, the mode
    classifier rule answers blueprint iff colorfulness is below the first
    threshold and edge density above the second, room otherwise; the
    source instantiates the thresholds at 25.0 and 0.05, and an
    undecodable image yields room without raising. -/
theorem mode_classifier_rule (t_c t_e : ℚ) (s : ImageScores) :
    (classify_mode t_c t_e s = "blueprint" ↔
      (s.colorfulness < t_c ∧ s.edge_density > t_e)) ∧
    (classify_mode t_c t_e s = "room" ↔
      ¬ (s.colorfulness < t_c ∧ s.edge_density > t_e)) ∧
    guess_mode_from_image (some s) = classify_mode 25 (1/20) s ∧
    guess_mode_from_image none = "room" := by
  refine ⟨?_, ?_, rfl, rfl⟩ <;> unfold classify_mode <;> split <;> simp_all

/-- Witness for C2 at concrete scores and thresholds. -/
theorem mode_classifier_rule_witness :
    classify_mode 25 (1/20) ⟨10, 1/10⟩ = "blueprint" ∧
    guess_mode_from_image none = "room" := by
  have h := mode_classifier_rule 25 (1/20) ⟨10, 1/10⟩
  exact ⟨h.1.mpr ⟨by norm_num, by norm_num⟩, h.2.2.2⟩

/-- C9: scene fusion is a pure function of its inputs: two calls on equal
    detection lists and equal depth, geometry, dimension and orientation
    stats produce identical scene records (the embedding is a total
    Lean function, so it performs no I/O and no model calls). -/
theorem scene_fusion_deterministic
    (p₁ p₂ : String) (d₁ d₂ : List DetInstance) (ds₁ ds₂ : DepthStats)
    (g₁ g₂ : GeomStats) (m₁ m₂ : DimEstimate) (o₁ o₂ : OrientStats)
    (hp : p₁ = p₂) (hd : d₁ = d₂) (hds : ds₁ = ds₂) (hg : g₁ = g₂)
    (hm : m₁ = m₂) (ho : o₁ = o₂) :
    to_scene_json p₁ d₁ ds₁ g₁ m₁ o₁ = to_scene_json p₂ d₂ ds₂ g₂ m₂ o₂ := by
  subst hp hd hds hg hm ho
  rfl

/-- Witness for C9 at concrete equal inputs. -/
theorem scene_fusion_deterministic_witness :
    to_scene_json "a.jpg" [sampleDet] sampleDepthStats sampleGeom sampleDim sampleOrient =
      to_scene_json "a.jpg" [sampleDet] sampleDepthStats sampleGeom sampleDim sampleOrient :=
  scene_fusion_deterministic _ _ _ _ _ _ _ _ _ _ _ _ rfl rfl rfl rfl rfl rfl

/-- C10: the objects array of the fused scene record has exactly the
    length and order of the input detection list, each entry is the
    projection of the corresponding detection, and its has_mask flag is
    true iff that detection carries a mask (the inputs are read-only in
    the embedding, so no detection is modified). -/
theorem scene_objects_aligned (p : String) (dets : List DetInstance)
    (ds : DepthStats) (g : GeomStats) (m : DimEstimate) (o : OrientStats) :
    ((to_scene_json p dets ds g m o).objects.length = dets.length) ∧
    ∀ k, k < dets.length →
      ((to_scene_json p dets ds g m o).objects.getD k dummyObj =
        { label := (dets.getD k dummyDet).label
          confidence := (dets.getD k dummyDet).confidence
          bbox_xyxy := [(dets.getD k dummyDet).bbox_xyxy.x1,
            (dets.getD k dummyDet).bbox_xyxy.y1,
            (dets.getD k dummyDet).bbox_xyxy.x2,
            (dets.getD k dummyDet).bbox_xyxy.y2]
          has_mask := (dets.getD k dummyDet).mask.isSome } ∧
        (((to_scene_json p dets ds g m o).objects.getD k dummyObj).has_mask = true ↔
          (dets.getD k dummyDet).mask.isSome = true)) := by
  refine ⟨by simp [to_scene_json], ?_⟩
  intro k hk
  have h : (to_scene_json p dets ds g m o).objects.getD k dummyObj
      = (fun d : DetInstance =>
          ({ label := d.label
             confidence := d.confidence
             bbox_xyxy := [d.bbox_xyxy.x1, d.bbox_xyxy.y1, d.bbox_xyxy.x2, d.bbox_xyxy.y2]
             has_mask := d.mask.isSome } : SceneObj)) (dets.getD k dummyDet) :=
    getD_map_of_lt _ dets k hk dummyDet dummyObj
  exact ⟨h, by rw [h]⟩

/-- Witness for C10 at a one-detection list whose detection has a mask. -/
theorem scene_objects_aligned_witness :
    (0 < ([sampleDetMask] : List DetInstance).length) ∧
    ((to_scene_json "a.jpg" [sampleDetMask] sampleDepthStats sampleGeom sampleDim
        sampleOrient).objects.getD 0 dummyObj).has_mask = true := by
  have h := scene_objects_aligned "a.jpg" [sampleDetMask] sampleDepthStats sampleGeom
    sampleDim sampleOrient
  exact ⟨by decide, ((h.2 0 (by decide)).2).mpr (by rfl)⟩

/-- C4 counterexample: the directory imgs exists but holds no recognized
    image file, and the batch call returns an empty BatchResult instead of
    the not-found error the claim requires. -/
theorem empty_dir_counterexample :
    listImages fsEmptyDir "imgs" = .ok [] ∧
    main_batch fsEmptyDir wBatchF "imgs" = .ok [] := by
  constructor <;> rfl

/-- C4 amended: a path that is an image file lists itself; a path that is
    a directory always succeeds with the suffix-filtered sorted children,
    even when that list is empty; only a path that is neither fails, with
    the not-found error, independently of the per-image pipeline. -/
theorem list_images_policy (fs : Fs) (run_one : String → Except String SceneRecord)
    (p : String) :
    ((fs.isFile p = true ∧ strLower (pathSuffix (baseName p)) ∈ IMAGE_EXTS) →
      listImages fs p = .ok [p]) ∧
    (¬ (fs.isFile p = true ∧ strLower (pathSuffix (baseName p)) ∈ IMAGE_EXTS) →
      fs.isDir p = true →
      listImages fs p = .ok ((((fs.children p).filter
        fun x => decide (strLower (pathSuffix x) ∈ IMAGE_EXTS)).insertionSort
          (· ≤ ·)).map (joinPath p))) ∧
    (¬ (fs.isFile p = true ∧ strLower (pathSuffix (baseName p)) ∈ IMAGE_EXTS) →
      fs.isDir p = false →
      listImages fs p = .error ("Invalid input path: " ++ p) ∧
      main_batch fs run_one p = .error ("Invalid input path: " ++ p)) := by
  refine ⟨fun h1 => ?_, fun h1 h2 => ?_, fun h1 h2 => ?_⟩
  · simp [listImages, h1]
  · simp [listImages, h1, h2]
  · have hl : listImages fs p = .error ("Invalid input path: " ++ p) := by
      simp [listImages, h1, h2]
    exact ⟨hl, by simp [main_batch, hl]⟩

/-- Witness for C4 at a missing path and at a single-image path. -/
theorem list_images_policy_witness :
    (fsOneRoom.isFile "room.jpg" = true ∧
      strLower (pathSuffix (baseName "room.jpg")) ∈ IMAGE_EXTS) ∧
    listImages fsOneRoom "room.jpg" = .ok ["room.jpg"] ∧
    main_batch fsOneRoom wBatchF "nowhere" = .error "Invalid input path: nowhere" := by
  refine ⟨⟨by rfl, by decide⟩, ?_, ?_⟩
  · exact (list_images_policy fsOneRoom wBatchF "room.jpg").1 ⟨by rfl, by decide⟩
  · exact ((list_images_policy fsOneRoom wBatchF "nowhere").2.2 (by decide) (by rfl)).2

/-- C6 counterexample: a supplied but negative camera height together
    with a field of view still yields the approx_meters variant, refuting
    the positive-finite condition of the claim. -/
theorem dimension_tag_counterexample :
    (estimate_dimensions mathEnv0 [[0, 0], [0, 0]] (some (-1)) (some 90)).scale
      = "approx_meters" := by rfl

/-- C6 amended: the variant tag is approx_meters iff both camera height
    and field of view are supplied at all (presence is the only test —
    sign and magnitude are never checked), and the scale-dependent fields
    are present exactly in the matching variant. -/
theorem dimension_tag_iff (env : MathEnv) (depth_norm : List (List ℚ))
    (ch fov : Option ℚ) :
    ((estimate_dimensions env depth_norm ch fov).scale = "approx_meters" ↔
      (ch.isSome = true ∧ fov.isSome = true)) ∧
    ((estimate_dimensions env depth_norm ch fov).scale = "relative" ↔
      ¬ (ch.isSome = true ∧ fov.isSome = true)) ∧
    ((estimate_dimensions env depth_norm ch fov).px_to_m.isSome = true ↔
      (ch.isSome = true ∧ fov.isSome = true)) ∧
    ((estimate_dimensions env depth_norm ch fov).focal_px.isSome = true ↔
      (ch.isSome = true ∧ fov.isSome = true)) ∧
    ((estimate_dimensions env depth_norm ch fov).ceiling_height_m_guess.isSome = true ↔
      (ch.isSome = true ∧ fov.isSome = true)) ∧
    ((estimate_dimensions env depth_norm ch fov).ceiling_height_px_guess.isSome = true ↔
      ¬ (ch.isSome = true ∧ fov.isSome = true)) := by
  cases ch <;> cases fov <;> simp [estimate_dimensions]

/-- Witness for C6: both parameters supplied gives approx_meters even
    though tan and deg2rad are arbitrary; one supplied gives relative. -/
theorem dimension_tag_iff_witness :
    (estimate_dimensions mathEnv0 [[0, 0], [0, 0]] (some 1) (some 90)).scale
        = "approx_meters" ∧
    (estimate_dimensions mathEnv0 [[0, 0], [0, 0]] (some 1) none).scale
        = "relative" := by
  have h1 := dimension_tag_iff mathEnv0 [[0, 0], [0, 0]] (some 1) (some 90)
  have h2 := dimension_tag_iff mathEnv0 [[0, 0], [0, 0]] (some 1) none
  exact ⟨h1.1.mpr ⟨rfl, rfl⟩, h2.2.1.mpr (by simp)⟩

/-- C5 counterexample: image readable, DINO not importable, YOLO not
    importable — the detection step returns an empty detection list
    instead of failing into a per-image error entry. -/
theorem detector_unavailable_counterexample :
    detect_and_segment percEnvNone "room.jpg" "" = .ok [] := by rfl

/-- C5 amended: an unavailable or failing DINO substitutes the YOLO
    fallback; an unavailable or failing YOLO yields an empty detection
    list rather than a failure; the only raise of the detection step is
    an unreadable image, which the batch level catches. -/
theorem detection_fallback_policy (env : PercEnv) (path prompt : String) :
    (env.imread path = none →
      detect_and_segment env path prompt = .error ("Could not read image: " ++ path)) ∧
    (∀ shape, env.imread path = some shape → env.dino = none →
      detect_and_segment env path prompt = yoloFallback env path) ∧
    (∀ shape dino e, env.imread path = some shape → env.dino = some dino →
      dino.predict shape (promptClasses prompt) = .error e →
      detect_and_segment env path prompt = yoloFallback env path) ∧
    (env.yolo = none → yoloFallback env path = .ok []) ∧
    (∀ y e, env.yolo = some y → y.infer path = .error e →
      yoloFallback env path = .ok []) ∧
    (∀ y bs, env.yolo = some y → y.infer path = .ok bs →
      yoloFallback env path = .ok (bs.map yoloDet)) := by
  refine ⟨fun h => ?_, fun shape h1 h2 => ?_, fun shape dino e h1 h2 h3 => ?_,
    fun h => ?_, fun y e h1 h2 => ?_, fun y bs h1 h2 => ?_⟩ <;>
      simp_all [detect_and_segment, yoloFallback]

/-- Witness for C5: no DINO means the YOLO fallback is consulted, and a
    missing YOLO degrades to the empty list. -/
theorem detection_fallback_policy_witness :
    detect_and_segment percEnvNone "room.jpg" "" = yoloFallback percEnvNone "room.jpg" ∧
    yoloFallback percEnvNone "room.jpg" = .ok [] := by
  have h := detection_fallback_policy percEnvNone "room.jpg" ""
  exact ⟨h.2.1 ⟨480, 640⟩ rfl rfl, h.2.2.2.1 rfl⟩

/-! ## Min/max lemmas for the depth normalization -/

theorem foldl_min_le_init : ∀ (xs : List ℚ) (a : ℚ), xs.foldl min a ≤ a
  | [], a => le_refl a
  | x :: xs, a => le_trans (foldl_min_le_init xs (min a x)) (min_le_left a x)

theorem foldl_min_le_mem : ∀ (xs : List ℚ) (a x : ℚ), x ∈ xs → xs.foldl min a ≤ x
  | y :: ys, a, x, h => by
    rcases List.mem_cons.mp h with h1 | h2
    · subst h1
      exact le_trans (foldl_min_le_init ys (min a x)) (min_le_right a x)
    · exact foldl_min_le_mem ys (min a y) x h2

theorem foldl_min_mem : ∀ (xs : List ℚ) (a : ℚ), xs.foldl min a = a ∨ xs.foldl min a ∈ xs
  | [], _ => Or.inl rfl
  | x :: xs, a => by
    rw [List.foldl_cons]
    rcases foldl_min_mem xs (min a x) with h | h
    · rw [h]
      rcases le_total a x with hax | hxa
      · exact Or.inl (min_eq_left hax)
      · exact Or.inr (by rw [min_eq_right hxa]; exact List.mem_cons_self x xs)
    · exact Or.inr (List.mem_cons_of_mem x h)

theorem init_le_foldl_max : ∀ (xs : List ℚ) (a : ℚ), a ≤ xs.foldl max a
  | [], a => le_refl a
  | x :: xs, a => le_trans (le_max_left a x) (init_le_foldl_max xs (max a x))

theorem mem_le_foldl_max : ∀ (xs : List ℚ) (a x : ℚ), x ∈ xs → x ≤ xs.foldl max a
  | y :: ys, a, x, h => by
    rcases List.mem_cons.mp h with h1 | h2
    · subst h1
      exact le_trans (le_max_right a x) (init_le_foldl_max ys (max a x))
    · exact mem_le_foldl_max ys (max a y) x h2

theorem foldl_max_mem : ∀ (xs : List ℚ) (a : ℚ), xs.foldl max a = a ∨ xs.foldl max a ∈ xs
  | [], _ => Or.inl rfl
  | x :: xs, a => by
    rw [List.foldl_cons]
    rcases foldl_max_mem xs (max a x) with h | h
    · rw [h]
      rcases le_total a x with hax | hxa
      · exact Or.inr (by rw [max_eq_right hax]; exact List.mem_cons_self x xs)
      · exact Or.inl (max_eq_left hxa)
    · exact Or.inr (List.mem_cons_of_mem x h)

theorem listMin_le {l : List ℚ} {x : ℚ} (h : x ∈ l) : listMin l ≤ x := by
  cases l with
  | nil => simp at h
  | cons a t =>
    rcases List.mem_cons.mp h with h1 | h2
    · subst h1; exact foldl_min_le_init t x
    · exact foldl_min_le_mem t a x h2

theorem listMin_mem {l : List ℚ} (h : l ≠ []) : listMin l ∈ l := by
  cases l with
  | nil => exact absurd rfl h
  | cons a t =>
    show t.foldl min a ∈ a :: t
    rcases foldl_min_mem t a with h1 | h1
    · rw [h1]; exact List.mem_cons_self a t
    · exact List.mem_cons_of_mem a h1

theorem le_listMax {l : List ℚ} {x : ℚ} (h : x ∈ l) : x ≤ listMax l := by
  cases l with
  | nil => simp at h
  | cons a t =>
    rcases List.mem_cons.mp h with h1 | h2
    · subst h1; exact init_le_foldl_max t x
    · exact mem_le_foldl_max t a x h2

theorem listMax_mem {l : List ℚ} (h : l ≠ []) : listMax l ∈ l := by
  cases l with
  | nil => exact absurd rfl h
  | cons a t =>
    show t.foldl max a ∈ a :: t
    rcases foldl_max_mem t a with h1 | h1
    · rw [h1]; exact List.mem_cons_self a t
    · exact List.mem_cons_of_mem a h1

theorem listMin_eq_of {l : List ℚ} {a : ℚ} (hmem : a ∈ l) (hle : ∀ x ∈ l, a ≤ x) :
    listMin l = a :=
  le_antisymm (listMin_le hmem) (hle _ (listMin_mem (List.ne_nil_of_mem hmem)))

theorem listMax_eq_of {l : List ℚ} {a : ℚ} (hmem : a ∈ l) (hge : ∀ x ∈ l, x ≤ a) :
    listMax l = a :=
  le_antisymm (hge _ (listMax_mem (List.ne_nil_of_mem hmem))) (le_listMax hmem)

theorem listMin_map_affine (l : List ℚ) (hne : l ≠ []) (m c : ℚ) (hc : 0 < c) :
    listMin (l.map fun x => (x - m) / c) = (listMin l - m) / c := by
  apply listMin_eq_of
  · exact List.mem_map_of_mem _ (listMin_mem hne)
  · intro y hy
    rcases List.mem_map.mp hy with ⟨x, hx, rfl⟩
    have h1 : listMin l - m ≤ x - m := sub_le_sub_right (listMin_le hx) m
    rw [div_eq_mul_inv, div_eq_mul_inv]
    exact mul_le_mul_of_nonneg_right h1 (inv_nonneg.mpr hc.le)

theorem listMax_map_affine (l : List ℚ) (hne : l ≠ []) (m c : ℚ) (hc : 0 < c) :
    listMax (l.map fun x => (x - m) / c) = (listMax l - m) / c := by
  apply listMax_eq_of
  · exact List.mem_map_of_mem _ (listMax_mem hne)
  · intro y hy
    rcases List.mem_map.mp hy with ⟨x, hx, rfl⟩
    have h1 : x - m ≤ listMax l - m := sub_le_sub_right (le_listMax hx) m
    rw [div_eq_mul_inv, div_eq_mul_inv]
    exact mul_le_mul_of_nonneg_right h1 (inv_nonneg.mpr hc.le)

theorem listMin_le_listMax {l : List ℚ} (hne : l ≠ []) : listMin l ≤ listMax l :=
  le_listMax (listMin_mem hne)

theorem spread_denom_pos {l : List ℚ} (hne : l ≠ []) :
    0 < listMax l - listMin l + EPS := by
  have h1 := listMin_le_listMax hne
  have h2 : (0 : ℚ) < EPS := by norm_num [EPS]
  linarith

theorem normalize_ne_nil {l : List ℚ} (hne : l ≠ []) : normalize_depth l ≠ [] := by
  simpa [normalize_depth] using hne

theorem normalize_min_eq (l : List ℚ) (hne : l ≠ []) :
    listMin (normalize_depth l) = 0 := by
  rw [normalize_depth, listMin_map_affine l hne _ _ (spread_denom_pos hne), sub_self,
    zero_div]

theorem normalize_max_eq (l : List ℚ) (hne : l ≠ []) :
    listMax (normalize_depth l) =
      (listMax l - listMin l) / (listMax l - listMin l + EPS) := by
  rw [normalize_depth, listMax_map_affine l hne _ _ (spread_denom_pos hne)]

/-- C7 counterexample: renormalizing the already-normalized field built
    from [0, 1] yields a maximum different from 1, and changes the field,
    refuting the claim's min-0/max-1-or-unchanged dichotomy. -/
theorem renormalize_counterexample :
    listMax (normalize_depth (normalize_depth [0, 1])) ≠ 1 ∧
    normalize_depth (normalize_depth [0, 1]) ≠ normalize_depth [0, 1] := by
  have h1 : normalize_depth [0, 1] = [0, 1000000/1000001] := by
    norm_num [normalize_depth, listMin, listMax, EPS, min_def, max_def]
  have h2 : normalize_depth [0, 1000000/1000001] = [0, 1000000000000/1000001000001] := by
    norm_num [normalize_depth, listMin, listMax, EPS, min_def, max_def]
  rw [h1, h2]
  constructor
  · norm_num [listMax, max_def]
  · norm_num

/-- C7 amended: renormalizing an already-normalized nonempty field yields
    minimum 0 and maximum S / (S + eps) where S is the normalized field's
    spread — strictly below 1 whenever the field is non-constant; a
    constant raw field normalizes to all zeros, and renormalizing then
    leaves the field exactly unchanged. -/
theorem renormalization_policy (l : List ℚ) (hne : l ≠ []) :
    listMin (normalize_depth (normalize_depth l)) = 0 ∧
    listMax (normalize_depth (normalize_depth l)) =
      (listMax (normalize_depth l) - listMin (normalize_depth l)) /
        (listMax (normalize_depth l) - listMin (normalize_depth l) + EPS) ∧
    (listMin (normalize_depth l) < listMax (normalize_depth l) →
      listMax (normalize_depth (normalize_depth l)) < 1) ∧
    (listMin l = listMax l →
      normalize_depth (normalize_depth l) = normalize_depth l) := by
  have hne2 := normalize_ne_nil hne
  refine ⟨normalize_min_eq _ hne2, normalize_max_eq _ hne2, ?_, ?_⟩
  · intro hlt
    rw [normalize_max_eq _ hne2]
    have heps : (0 : ℚ) < EPS := by norm_num [EPS]
    rw [div_lt_one (by linarith)]
    linarith
  · intro hconst
    have hall : ∀ x ∈ l, x = listMin l := fun x hx =>
      le_antisymm (hconst ▸ le_listMax hx) (listMin_le hx)
    have hdn : ∀ x ∈ normalize_depth l, x = 0 := by
      intro x hx
      rcases List.mem_map.mp hx with ⟨y, hy, rfl⟩
      rw [hall y hy, sub_self, zero_div]
    have h0 : listMin (normalize_depth l) = 0 := hdn _ (listMin_mem hne2)
    have h1 : listMax (normalize_depth l) = 0 := hdn _ (listMax_mem hne2)
    have hstep : normalize_depth (normalize_depth l) = (normalize_depth l).map
        (fun x => (x - listMin (normalize_depth l)) /
          (listMax (normalize_depth l) - listMin (normalize_depth l) + EPS)) := rfl
    rw [hstep]
    have hid : (normalize_depth l).map
        (fun x => (x - listMin (normalize_depth l)) /
          (listMax (normalize_depth l) - listMin (normalize_depth l) + EPS))
        = (normalize_depth l).map id := by
      apply List.map_congr_left
      intro x hx
      rw [hdn x hx, h0, h1]
      simp
    rw [hid, List.map_id]

/-- Witness for C7 at the two-element field [0, 1]. -/
theorem renormalization_policy_witness :
    (([0, 1] : List ℚ) ≠ [] ∧
      listMin (normalize_depth [0, 1]) < listMax (normalize_depth [0, 1])) ∧
    listMin (normalize_depth (normalize_depth [0, 1])) = 0 ∧
    listMax (normalize_depth (normalize_depth [0, 1])) < 1 := by
  have hlt : listMin (normalize_depth [0, 1]) < listMax (normalize_depth [0, 1]) := by
    norm_num [normalize_depth, listMin, listMax, EPS, min_def, max_def]
  have h := renormalization_policy [0, 1] (by simp)
  exact ⟨⟨by simp, hlt⟩, h.1, h.2.2.1 hlt⟩

/-! ## Lemmas for the orientation estimator on constant images -/

theorem getD_replicate_lt : ∀ (n i : Nat) (a d : ℚ), i < n →
    (List.replicate n a).getD i d = a
  | 0, _, _, _, hi => absurd hi (by omega)
  | _ + 1, 0, _, _, _ => rfl
  | n + 1, i + 1, a, d, hi => getD_replicate_lt n i a d (by omega)

theorem insertionSort_replicate (n : Nat) (a : ℚ) :
    (List.replicate n a).insertionSort (· ≤ ·) = List.replicate n a :=
  List.Sorted.insertionSort_eq (List.pairwise_replicate.mpr (Or.inr le_rfl))

theorem npQuantile_replicate (n : Nat) (a q : ℚ) (hn : 1 ≤ n) (_hq0 : 0 ≤ q)
    (hq1 : q ≤ 1) : npQuantile (List.replicate n a) q = a := by
  have hn1 : (1 : ℚ) ≤ (n : ℚ) := by exact_mod_cast hn
  have hposn : q * ((n : ℚ) - 1) ≤ (n : ℚ) - 1 := by nlinarith
  have hlo : (⌊q * ((n : ℚ) - 1)⌋).toNat < n := by
    have h2 : ⌊q * ((n : ℚ) - 1)⌋ ≤ ⌊(n : ℚ) - 1⌋ := Int.floor_le_floor hposn
    have h3 : ⌊(n : ℚ) - 1⌋ = (n : ℤ) - 1 := by
      rw [show ((n : ℚ) - 1) = (((n : ℤ) - 1 : ℤ) : ℚ) by push_cast; ring,
        Int.floor_intCast]
    omega
  have hhi : (⌈q * ((n : ℚ) - 1)⌉).toNat < n := by
    have h2 : ⌈q * ((n : ℚ) - 1)⌉ ≤ (n : ℤ) - 1 := by
      rw [Int.ceil_le]
      push_cast
      linarith
    omega
  simp only [npQuantile, insertionSort_replicate, List.length_replicate]
  rw [if_neg (by omega : ¬ n = 0), getD_replicate_lt _ _ _ _ hlo,
    getD_replicate_lt _ _ _ _ hhi]
  ring

theorem flatten_replicate (h w : Nat) (a : ℚ) :
    (List.replicate h (List.replicate w a)).flatten = List.replicate (h * w) a := by
  induction h with
  | zero => simp
  | succ n ih =>
    rw [List.replicate_succ, List.flatten_cons, ih,
      show (n + 1) * w = w + n * w by ring, List.replicate_add]

theorem headD_replicate {α : Type} (h : Nat) (a d : α) (hh : 1 ≤ h) :
    (List.replicate h a).headD d = a := by
  cases h with
  | zero => omega
  | succ n => rfl

theorem sum_replicate_rat (n : Nat) (x : ℚ) : (List.replicate n x).sum = (n : ℚ) * x := by
  rw [List.sum_replicate, nsmul_eq_mul]

theorem enumFrom_replicate_weight : ∀ (m n : Nat) (c : ℚ),
    ((List.enumFrom n (List.replicate m c)).map fun pr => (pr.1 : ℚ) * pr.2).sum
      = c * ((m : ℚ) * (n : ℚ) + (m : ℚ) * ((m : ℚ) - 1) / 2)
  | 0, n, c => by simp
  | m + 1, n, c => by
    rw [List.replicate_succ, List.enumFrom_cons, List.map_cons, List.sum_cons,
      enumFrom_replicate_weight m (n + 1) c]
    push_cast
    ring

theorem rowM10_replicate (w : Nat) (x : ℚ) :
    rowM10 (List.replicate w x) = x * ((w : ℚ) * ((w : ℚ) - 1) / 2) := by
  have h := enumFrom_replicate_weight w 0 x
  unfold rowM10
  show ((List.enumFrom 0 (List.replicate w x)).map fun pr => (pr.1 : ℚ) * pr.2).sum = _
  rw [h]
  ring

theorem gridM00_replicate (h w : Nat) (x : ℚ) :
    gridM00 (List.replicate h (List.replicate w x)) = (h : ℚ) * ((w : ℚ) * x) := by
  unfold gridM00
  rw [List.map_replicate, sum_replicate_rat, sum_replicate_rat]

theorem gridM10_replicate (h w : Nat) (x : ℚ) :
    gridM10 (List.replicate h (List.replicate w x))
      = (h : ℚ) * (x * ((w : ℚ) * ((w : ℚ) - 1) / 2)) := by
  unfold gridM10
  rw [List.map_replicate, rowM10_replicate, sum_replicate_rat]

theorem const_m00_large (h w c : Nat) (hh : 1 ≤ h) (hw : 10 ≤ w) (hc : 1 ≤ c) :
    (1 : ℚ) / 1000000 < (h : ℚ) * ((w : ℚ) * ((c : ℚ) / 255)) := by
  have hh1 : (1 : ℚ) ≤ (h : ℚ) := by exact_mod_cast hh
  have hw1 : (10 : ℚ) ≤ (w : ℚ) := by exact_mod_cast hw
  have hc1 : (1 : ℚ) ≤ (c : ℚ) := by exact_mod_cast hc
  have h1 : (10 : ℚ) * 1 ≤ (w : ℚ) * (c : ℚ) :=
    mul_le_mul hw1 hc1 (by norm_num) (by linarith)
  have h2 : (1 : ℚ) * (10 : ℚ) ≤ (h : ℚ) * ((w : ℚ) * (c : ℚ)) :=
    mul_le_mul hh1 (by linarith) (by norm_num) (by linarith)
  calc (1 : ℚ) / 1000000 < 10 / 255 := by norm_num
    _ ≤ (h : ℚ) * ((w : ℚ) * (c : ℚ)) / 255 := by linarith
    _ = (h : ℚ) * ((w : ℚ) * ((c : ℚ) / 255)) := by ring

set_option maxHeartbeats 1600000 in
/-- Evaluation of estimate_orientation on a constant image of height at
    least 1, width at least 10 and channel value at least 1: the clipped
    value channel is the constant c/255 grid, the zeroth moment is
    h*w*c/255 (far above the 1e-6 guard), and the brightness centroid sits
    at the horizontal center (w-1)/2, inside the ambiguous band. -/
theorem const_image_orientation (h w c : Nat) (hh : 1 ≤ h) (hw : 10 ≤ w) (hc : 1 ≤ c) :
    estimate_orientation (some (mkConstImage h w c)) =
      { orientation := "South/North ambiguous"
        brightness_cx_px := some (((w : ℚ) - 1) / 2)
        image_width_px := some w } := by
  have hw1 : (10 : ℚ) ≤ (w : ℚ) := by exact_mod_cast hw
  have hpx : pixelV (c, c, c) = (c : ℚ) / 255 := by simp [pixelV]
  have hcv0 : (0 : ℚ) ≤ (c : ℚ) / 255 := by positivity
  have hv : (List.replicate h (List.replicate w ((c, c, c) : BGRPixel))).map
      (fun r => r.map pixelV) = List.replicate h (List.replicate w ((c : ℚ) / 255)) := by
    rw [List.map_replicate, List.map_replicate, hpx]
  have hclip : (List.replicate h (List.replicate w ((c : ℚ) / 255))).map
        (fun r => r.map fun x => max 0 (min x ((c : ℚ) / 255)))
      = List.replicate h (List.replicate w ((c : ℚ) / 255)) := by
    rw [List.map_replicate, List.map_replicate, min_self, max_eq_right hcv0]
  have hq : npQuantile (List.replicate h (List.replicate w ((c : ℚ) / 255))).flatten
        (995 / 1000) = (c : ℚ) / 255 := by
    rw [flatten_replicate]
    exact npQuantile_replicate _ _ _ (Nat.mul_pos hh (by omega)) (by norm_num)
      (by norm_num)
  have hM := const_m00_large h w c hh hw hc
  have hcx : (h : ℚ) * (((c : ℚ) / 255) * ((w : ℚ) * ((w : ℚ) - 1) / 2)) /
      ((h : ℚ) * ((w : ℚ) * ((c : ℚ) / 255))) = ((w : ℚ) - 1) / 2 := by
    have hh0 : (h : ℚ) ≠ 0 := by
      have : (1 : ℚ) ≤ (h : ℚ) := by exact_mod_cast hh
      linarith
    have hw0 : (w : ℚ) ≠ 0 := by linarith
    have hc0 : (c : ℚ) ≠ 0 := by
      have : (1 : ℚ) ≤ (c : ℚ) := by exact_mod_cast hc
      linarith
    field_simp
    ring
  simp only [estimate_orientation, mkConstImage]
  simp only [hv, hq, hclip, gridM00_replicate, gridM10_replicate]
  rw [if_neg (not_le.mpr hM)]
  simp only [hcx, headD_replicate h (List.replicate w ((c, c, c) : BGRPixel)) [] hh,
    List.length_replicate]
  rw [if_neg (by linarith : ¬ (((w : ℚ) - 1) / 2 > 55 / 100 * (w : ℚ))),
    if_neg (by linarith : ¬ (((w : ℚ) - 1) / 2 < 45 / 100 * (w : ℚ)))]

/-- C8 counterexample: a 10 by 10 uniformly mid-gray image (every pixel
    128) yields the ambiguous label, not unknown: the zeroth moment does
    not collapse after highlight clipping. -/
theorem midgray_counterexample :
    (estimate_orientation (some (mkConstImage 10 10 128))).orientation
        = "South/North ambiguous" ∧
    (estimate_orientation (some (mkConstImage 10 10 128))).orientation ≠ "unknown" := by
  have h := const_image_orientation 10 10 128 (by norm_num) (by norm_num) (by norm_num)
  rw [h]
  exact ⟨rfl, by decide⟩

/-- C8 corrected: a uniform image with any nonzero pixel value (width at
    least 10 so the thresholds land inside the band) yields the ambiguous
    label with centroid (w-1)/2 — not unknown: the zeroth moment after
    highlight clipping equals h*w*c/255, which stays far above the 1e-6
    guard, so neither degenerate mechanism of the claim occurs. -/
theorem uniform_image_orientation (h w c : Nat) (hh : 1 ≤ h) (hw : 10 ≤ w)
    (hc : 1 ≤ c) :
    estimate_orientation (some (mkConstImage h w c)) =
      { orientation := "South/North ambiguous"
        brightness_cx_px := some (((w : ℚ) - 1) / 2)
        image_width_px := some w } ∧
    (1 : ℚ) / 1000000 <
      gridM00 (List.replicate h (List.replicate w ((c : ℚ) / 255))) := by
  refine ⟨const_image_orientation h w c hh hw hc, ?_⟩
  rw [gridM00_replicate]
  exact const_m00_large h w c hh hw hc

/-- Witness for C8 at a 1 by 12 constant image of value 200. -/
theorem uniform_image_orientation_witness :
    ((1 : Nat) ≤ 1 ∧ (10 : Nat) ≤ 12 ∧ (1 : Nat) ≤ 200) ∧
    estimate_orientation (some (mkConstImage 1 12 200)) =
      { orientation := "South/North ambiguous"
        brightness_cx_px := some (11 / 2)
        image_width_px := some 12 } := by
  have h := uniform_image_orientation 1 12 200 (by norm_num) (by norm_num) (by norm_num)
  refine ⟨⟨by norm_num, by norm_num, by norm_num⟩, ?_⟩
  rw [h.1]
  norm_num

/-- C3: with mode override floorplan the dispatcher does not fail at all:
    it reads and processes the image and returns a normal result list —
    the membership check inspects the inner loop variable, which is
    always blueprint or room, so the invalid-argument branch is dead. -/
theorem invalid_override_not_rejected :
    process_media mediaEnv0 fsOneRoom "room.jpg" (some "floorplan") = .ok [⟨"room"⟩] ∧
    ∀ g : String, secondMode g = "blueprint" ∨ secondMode g = "room" := by
  refine ⟨by rfl, fun g => ?_⟩
  by_cases hg : g = "blueprint" <;> simp [secondMode, hg]

end TourGuide
